import Mathlib

/-!
Verification of the `FastAppConf` configuration class (src/main.py).

The class is configuration glue over FastAPI/Starlette: it constructs an
application instance, attaches a CORS middleware, mounts static directories,
and conditionally substitutes the Swagger-UI documentation assets with
locally hosted copies.

Embedding conventions:
* The FastAPI application object is the record `App`; in-place mutation of
  `self.app` in Python is modelled by explicit state passing.
* The module-global renderer `applications.get_swagger_ui_html` is the
  separate state value `Renderer`, threaded through `setup`.
* The filesystem and the offline asset package location
  (`fastapi_offline_swagger_ui.__path__[0]`) are an environment record
  `Env`; `os.path.exists` is `Env.fsExists`.
* Python string truthiness (`all([...])`, `origins or []`) is modelled
  exactly: `None` and the empty string or list are falsy.
* Keyword arguments of a renderer call are an association list; Python
  raising `TypeError` on a duplicate keyword argument is `Except.error`.
* Starlette internals (StaticFiles request serving, route resolution,
  CORSMiddleware origin checking) are not part of this repository; the
  definitions modelling them carry a doc comment starting
  `Modelled from the spec:`.
-/

/-- Character-level helper for `basename`: scan the path, resetting the
accumulator after each slash, so the result is the text after the last
slash (empty when the path ends in a slash), matching posix
`os.path.basename`. -/
def basenameAux : List Char → List Char → List Char
  | [], acc => acc
  | c :: rest, acc =>
    if c = '/' then basenameAux rest [] else basenameAux rest (acc ++ [c])

/-- Model of `os.path.basename` (posix): the final path segment, i.e. the
text after the last slash; the whole string when there is no slash, and
empty when the path ends in a slash. -/
def basename (p : String) : String :=
  String.mk (basenameAux p.data [])

/-- True when the string starts with a slash (posix absolute path test used
by `os.path.join`). -/
def startsWithSlash (s : String) : Bool :=
  match s.data with
  | [] => false
  | c :: _ => c = '/'

/-- True when the string ends with a slash. -/
def endsWithSlash (s : String) : Bool :=
  match s.data.getLast? with
  | some c => c = '/'
  | none => false

/-- True when the string is empty (Python falsiness of a string). -/
def strIsEmpty (s : String) : Bool :=
  s.data.isEmpty

/-- Model of posix `os.path.join` for two components: an absolute second
component replaces the first; otherwise the components are joined with a
slash unless the first is empty or already ends in one. -/
def joinPath (a b : String) : String :=
  if startsWithSlash b then b
  else if strIsEmpty a || endsWithSlash a then a ++ b
  else a ++ "/" ++ b

/-- Python truthiness of an optional string: `None` and the empty string
are falsy, every other string is truthy. -/
def truthy : Option String → Bool
  | none => false
  | some s => !(strIsEmpty s)

/-- Python `v or d` for an optional list: `None` and the empty list are
falsy, so either yields the default. Models lines 58 and 59 of
src/main.py (`origins or []`, `static_dirs or []`). -/
def pyListOr (v : Option (List String)) (d : List String) : List String :=
  match v with
  | none => d
  | some l => if l.isEmpty then d else l

/-- The environment: the location of the bundled offline Swagger-UI asset
package (`fastapi_offline_swagger_ui.__path__[0]`) and the filesystem
existence predicate (`os.path.exists`), snapshotted at setup time. -/
structure Env where
  asset_path : String
  fsExists : String → Bool

/-- Model of a `StaticFiles(directory=...)` instance: it records the
directory it serves. -/
structure StaticFiles where
  directory : String
deriving DecidableEq

/-- A mount registered on the application: the URL path, the sub-application
(here always a `StaticFiles` instance) and the mount name. -/
structure Mount where
  path : String
  app : StaticFiles
  name : String
deriving DecidableEq

/-- The CORS middleware configuration attached by `configure_cors`. -/
structure Middleware where
  allow_origins : List String
  allow_credentials : Bool
  allow_methods : List String
  allow_headers : List String
deriving DecidableEq

/-- The FastAPI application instance, as far as this repository observes it:
the constructor arguments passed in `setup`, plus the registered
middlewares and mounts. `Λ` is the abstract type of the lifespan hook. -/
structure App (Λ : Type) where
  title : Option String
  version : Option String
  root_path : Option String
  openapi_url : Option String
  docs_url : Option String
  lifespan : Option Λ
  middlewares : List Middleware
  mounts : List Mount
deriving DecidableEq

/-- Model of `starlette.applications.mount` as this repository uses it:
registers the mount by appending it to the route list. -/
def App.mount (a : App Λ) (path : String) (sub : StaticFiles) (name : String) : App Λ :=
  { a with mounts := a.mounts ++ [{ path := path, app := sub, name := name }] }

/-- Model of `add_middleware`: registers the middleware. -/
def App.add_middleware (a : App Λ) (m : Middleware) : App Λ :=
  { a with middlewares := a.middlewares ++ [m] }

/-- The `FastAppConf` configuration record (src/main.py lines 49-60). `Λ` is
the abstract type of the lifespan hook held by the constructed `App`. -/
structure FastAppConf (Λ : Type) where
  title : Option String
  version : Option String
  openapi_prefix : Option String
  openapi_url : Option String
  assets_url : Option String
  docs_url : Option String
  swagger_css_url : Option String
  swagger_js_url : Option String
  swagger_favicon_url : Option String
  origins : List String
  static_dirs : List String
  app : Option (App Λ)
deriving DecidableEq

/-- Model of `FastAppConf.__init__` (src/main.py lines 19-60): stores every
field verbatim, except that `origins` and `static_dirs` are normalized by
Python `or []`, and `app` starts out as `None`. -/
def FastAppConf.init (title version openapi_prefix openapi_url assets_url
    docs_url swagger_css_url swagger_js_url swagger_favicon_url : Option String)
    (origins static_dirs : Option (List String)) : FastAppConf Λ :=
  { title := title
    version := version
    openapi_prefix := openapi_prefix
    openapi_url := openapi_url
    assets_url := assets_url
    docs_url := docs_url
    swagger_css_url := swagger_css_url
    swagger_js_url := swagger_js_url
    swagger_favicon_url := swagger_favicon_url
    origins := pyListOr origins []
    static_dirs := pyListOr static_dirs []
    app := none }

/-- The `FastAPI(...)` constructor call in `setup` (src/main.py lines
63-70): the identity and routing fields of the configuration are passed,
`openapi_prefix` as `root_path`, the lifespan hook unmodified, and the
application starts with no middlewares and no mounts. -/
def mkFastAPI (c : FastAppConf Λ) (lifespan : Option Λ) : App Λ :=
  { title := c.title
    version := c.version
    root_path := FastAppConf.openapi_prefix c
    openapi_url := c.openapi_url
    docs_url := c.docs_url
    lifespan := lifespan
    middlewares := []
    mounts := [] }

/-- Model of `configure_cors` (src/main.py lines 76-83): adds a
`CORSMiddleware` with `allow_origins` the configured list,
`allow_credentials=True`, and wildcard methods and headers. The Python
method mutates `self.app` and returns `None`; here the application state is
passed and returned explicitly. -/
def FastAppConf.configure_cors (c : FastAppConf Λ) (a : App Λ) : App Λ :=
  a.add_middleware
    { allow_origins := c.origins
      allow_credentials := true
      allow_methods := ["*"]
      allow_headers := ["*"] }

/-- Model of `mount_static_dirs` (src/main.py lines 85-92): for each
configured directory, in order, mount a `StaticFiles` instance for it at
`/` + its basename, under the name "static". No filesystem access occurs:
the definition does not take an `Env`. -/
def FastAppConf.mount_static_dirs (c : FastAppConf Λ) (a : App Λ) : App Λ :=
  c.static_dirs.foldl
    (fun acc static_dir =>
      acc.mount ("/" ++ basename static_dir) { directory := static_dir } "static")
    a

/-- The mount that `mount_static_dirs` registers for one directory. -/
def mountFor (static_dir : String) : Mount :=
  { path := "/" ++ basename static_dir
    app := { directory := static_dir }
    name := "static" }

/-- The state of the module-global documentation renderer
`applications.get_swagger_ui_html`: either the framework default, or
monkey-patched with a bound `_swagger_monkey_patch` capturing the
configuration object. -/
inductive Renderer (Λ : Type) where
  | default : Renderer Λ
  | patched : FastAppConf Λ → Renderer Λ
deriving DecidableEq

/-- Model of `configure_swagger_ui` (src/main.py lines 94-113): when all
four asset fields are truthy, locate the offline asset package, and when
both `swagger-ui.css` and `swagger-ui-bundle.js` exist there, mount the
package directory at the configured assets URL (name "assets") and
monkey-patch the global renderer; in every other case neither the
application nor the global renderer changes. -/
def FastAppConf.configure_swagger_ui (env : Env) (c : FastAppConf Λ)
    (a : App Λ) (r : Renderer Λ) : App Λ × Renderer Λ :=
  if truthy c.assets_url && truthy c.swagger_css_url
      && truthy c.swagger_js_url && truthy c.swagger_favicon_url then
    let asset_path := env.asset_path
    let css_file_path := joinPath asset_path "swagger-ui.css"
    let js_file_path := joinPath asset_path "swagger-ui-bundle.js"
    if env.fsExists css_file_path && env.fsExists js_file_path then
      (a.mount (c.assets_url.getD "") { directory := asset_path } "assets",
       Renderer.patched c)
    else (a, r)
  else (a, r)

/-- The activation condition of `configure_swagger_ui`, written out: all
four asset-related fields truthy, and both asset files present in the
offline package directory. -/
def swaggerCond (env : Env) (c : FastAppConf Λ) : Bool :=
  (truthy c.assets_url && truthy c.swagger_css_url
      && truthy c.swagger_js_url && truthy c.swagger_favicon_url)
    && (env.fsExists (joinPath env.asset_path "swagger-ui.css")
      && env.fsExists (joinPath env.asset_path "swagger-ui-bundle.js"))

/-- The record of one call reaching the real `get_swagger_ui_html`: its
positional arguments and its keyword arguments in order. Keyword values are
optional strings since Python callers may pass `None`. -/
structure SwaggerCall where
  args : List String
  kwargs : List (String × Option String)
deriving DecidableEq

/-- Model of `_swagger_monkey_patch` (src/main.py lines 115-122): forwards
the call to `get_swagger_ui_html`, adding the three configured URLs as
keyword arguments. When the incoming keyword arguments already bind one of
those three names, Python raises `TypeError` (duplicate keyword argument),
modelled as `Except.error`. -/
def FastAppConf._swagger_monkey_patch (c : FastAppConf Λ) (args : List String)
    (kwargs : List (String × Option String)) : Except String SwaggerCall :=
  if kwargs.any (fun kv =>
      kv.1 = "swagger_favicon_url" || kv.1 = "swagger_css_url"
        || kv.1 = "swagger_js_url") then
    Except.error "TypeError: got multiple values for keyword argument"
  else
    Except.ok
      { args := args
        kwargs := kwargs
          ++ [("swagger_favicon_url", c.swagger_favicon_url),
              ("swagger_css_url", c.swagger_css_url),
              ("swagger_js_url", c.swagger_js_url)] }

/-- A call to the global renderer: the default forwards the arguments
unchanged to `get_swagger_ui_html`; the patched renderer goes through
`_swagger_monkey_patch` of the captured configuration. -/
def Renderer.call (r : Renderer Λ) (args : List String)
    (kwargs : List (String × Option String)) : Except String SwaggerCall :=
  match r with
  | Renderer.default => Except.ok { args := args, kwargs := kwargs }
  | Renderer.patched c => FastAppConf._swagger_monkey_patch c args kwargs

/-- Model of `setup` (src/main.py lines 62-74): construct the application
from the configuration, then apply in order `configure_cors`,
`mount_static_dirs`, `configure_swagger_ui`; the constructed application is
stored in the `app` field and returned. The global renderer state is
threaded explicitly. -/
def FastAppConf.setup (env : Env) (c : FastAppConf Λ) (lifespan : Option Λ)
    (r : Renderer Λ) : FastAppConf Λ × App Λ × Renderer Λ :=
  let a0 := mkFastAPI c lifespan
  let a1 := FastAppConf.configure_cors c a0
  let a2 := FastAppConf.mount_static_dirs c a1
  let ar := FastAppConf.configure_swagger_ui env c a2 r
  ({ c with app := some ar.1 }, ar.1, ar.2)

/-- Modelled from the spec: `StaticFiles` request-time serving is part of
Starlette, not of this repository. Per the spec, a request for a file is
served from the mounted directory when the file exists and fails at request
time otherwise (no validation having happened at mount time). The result is
the resolved filesystem path, or `none` for the request-time failure. -/
def StaticFiles.serveRequest (env : Env) (sf : StaticFiles) (rel : String) : Option String :=
  if env.fsExists (joinPath sf.directory rel) then some (joinPath sf.directory rel)
  else none

/-- Modelled from the spec: route resolution among mounts is part of the
underlying framework, not of this repository. Per the spec, when two mounts
share the same path the later mount takes precedence (last-write-wins), so
resolution picks the last mount registered at the given path. -/
def resolveMount (mounts : List Mount) (p : String) : Option Mount :=
  (mounts.filter (fun m => m.path = p)).getLast?

/-- Strips a literal character-list pattern from the front of another,
returning the remainder when it matches. -/
def stripPre : List Char → List Char → Option (List Char)
  | [], rest => some rest
  | _, [] => none
  | p :: ps, c :: cs => if p = c then stripPre ps cs else none

/-- Strips a literal string from the front of a URL, returning the
remainder when it matches. -/
def stripPathPre (p url : String) : Option String :=
  (stripPre p.data url.data).map String.mk

/-- Modelled from the spec: request dispatch is part of the underlying
framework, not of this repository. A request URL under a mount path is
served from the bound directory with the remainder of the URL as the
relative file path; among matching mounts the later one takes precedence,
consistent with `resolveMount`. -/
def resolveRequest (env : Env) (mounts : List Mount) (url : String) : Option String :=
  match (mounts.filter (fun m => (stripPathPre (m.path ++ "/") url).isSome)).getLast? with
  | none => none
  | some m =>
    match stripPathPre (m.path ++ "/") url with
    | none => none
    | some rel => StaticFiles.serveRequest env m.app rel

/-- Modelled from the spec: `CORSMiddleware` origin checking is part of
Starlette, not of this repository. Per the spec, the allowed origins are
exactly the configured list: an empty list allows no origins, and the list
is not interpreted as a wildcard. -/
def Middleware.allowsOrigin (m : Middleware) (o : String) : Bool :=
  m.allow_origins.contains o

/-- Concrete environment for the specification scenario: the file
/srv/public/index.html exists, nothing else does. -/
def demoEnv : Env :=
  { asset_path := "/offline-assets"
    fsExists := fun p => p == "/srv/public/index.html" }

/-- Concrete configuration for the specification scenario: only
static_dirs is supplied, as ["/srv/public"]. -/
def demoPublicConf : FastAppConf Unit :=
  FastAppConf.init none none none none none none none none none
    none (some ["/srv/public"])

/-- Concrete configuration with two static directories sharing the basename
x, for exercising the duplicate-basename edge case. -/
def twoDirConf : FastAppConf Unit :=
  FastAppConf.init none none none none none none none none none
    none (some ["/a/x", "/b/x"])

/-- Concrete configuration with all four documentation-asset fields
populated. -/
def fullAssetConf : FastAppConf Unit :=
  FastAppConf.init none none none none (some "/assets-url") none
    (some "/assets-url/swagger-ui.css") (some "/assets-url/swagger-ui-bundle.js")
    (some "/assets-url/favicon.png") none none

/-- Concrete environment in which no file exists, in particular the offline
asset files are absent. -/
def missingAssetEnv : Env :=
  { asset_path := "/offline-assets"
    fsExists := fun _ => false }

/-- Concrete environment in which every file exists, in particular both
offline asset files. -/
def presentAssetEnv : Env :=
  { asset_path := "/offline-assets"
    fsExists := fun _ => true }

/-- Unfolding of the foldl in `mount_static_dirs`: the mounts for the
directory list are appended, in order, to the existing mounts, and no other
field of the application changes. -/
theorem foldl_mount_eq (l : List String) (a : App Λ) :
    List.foldl
      (fun acc static_dir =>
        acc.mount ("/" ++ basename static_dir) { directory := static_dir } "static")
      a l
    = { a with mounts := a.mounts ++ l.map mountFor } := by
  induction l generalizing a with
  | nil => simp
  | cons d t ih =>
    rw [List.foldl_cons, ih]
    simp [App.mount, mountFor]

/-- Structure-update form of `mount_static_dirs`. -/
theorem mount_static_dirs_eq (c : FastAppConf Λ) (a : App Λ) :
    FastAppConf.mount_static_dirs c a
      = { a with mounts := a.mounts ++ c.static_dirs.map mountFor } :=
  foldl_mount_eq c.static_dirs a

/-- Case form of `configure_swagger_ui`: either the activation condition
`swaggerCond` holds and the offline assets are mounted and the renderer
patched, or the pair is returned untouched. -/
theorem configure_swagger_ui_eq (env : Env) (c : FastAppConf Λ) (a : App Λ)
    (r : Renderer Λ) :
    FastAppConf.configure_swagger_ui env c a r
      = if swaggerCond env c then
          ({ a with mounts := a.mounts
                ++ [{ path := Option.getD (FastAppConf.assets_url c) ""
                      app := { directory := env.asset_path }
                      name := "assets" }] },
           Renderer.patched c)
        else (a, r) := by
  unfold FastAppConf.configure_swagger_ui swaggerCond
  cases h1 : (truthy c.assets_url && truthy c.swagger_css_url
      && truthy c.swagger_js_url && truthy c.swagger_favicon_url) with
  | false => simp [h1]
  | true =>
    cases h2 : (env.fsExists (joinPath env.asset_path "swagger-ui.css")
        && env.fsExists (joinPath env.asset_path "swagger-ui-bundle.js")) with
    | false => simp [h1, h2]
    | true => simp [h1, h2, App.mount]

/-- Mounting strictly extends the mount list, so the application changes. -/
theorem App.mount_ne (a : App Λ) (p : String) (sub : StaticFiles) (n : String) :
    App.mount a p sub n ≠ a := by
  intro h
  have hm : (App.mount a p sub n).mounts = a.mounts := by rw [h]
  simp [App.mount] at hm

/-- C1: documentation-asset substitution (mounting the offline asset
directory at the configured assets URL and replacing the documentation
renderer) happens if and only if all four asset-related fields are
non-empty and both swagger-ui.css and swagger-ui-bundle.js exist in the
offline asset directory at setup time; in every other case the application
and the default renderer are left unmodified. -/
theorem configure_swagger_ui_activation_iff (env : Env) (c : FastAppConf Λ)
    (a : App Λ) (r : Renderer Λ) :
    (FastAppConf.configure_swagger_ui env c a r ≠ (a, r) ↔ swaggerCond env c = true)
    ∧ (swaggerCond env c = true →
        FastAppConf.configure_swagger_ui env c a r
          = (App.mount a (Option.getD c.assets_url "")
               { directory := env.asset_path } "assets",
             Renderer.patched c))
    ∧ (swaggerCond env c = false →
        FastAppConf.configure_swagger_ui env c a r = (a, r)) := by
  rw [configure_swagger_ui_eq]
  cases h : swaggerCond env c with
  | false => simp [h]
  | true =>
    simp only [h, if_true, ne_eq]
    refine ⟨?_, fun _ => by simp [App.mount], fun hf => by cases hf⟩
    simp only [iff_true]
    intro hpair
    exact App.mount_ne a (Option.getD c.assets_url "")
      { directory := env.asset_path } "assets"
      (by simpa [App.mount] using congrArg Prod.fst hpair)

/-- C2: mount_static_dirs itself never fails and performs no filesystem
validation: it registers a mount for every configured directory without
consulting the environment; a missing directory surfaces only at request
time, when the static-file server fails to serve from it. -/
theorem mount_static_dirs_no_eager_validation (env : Env) (c : FastAppConf Λ)
    (a : App Λ) :
    (FastAppConf.mount_static_dirs c a).mounts = a.mounts ++ c.static_dirs.map mountFor
    ∧ (∀ d rel, env.fsExists (joinPath d rel) = false →
        StaticFiles.serveRequest env { directory := d } rel = none) := by
  refine ⟨by rw [mount_static_dirs_eq], ?_⟩
  intro d rel h
  simp [StaticFiles.serveRequest, h]

/-- C3: static directories are mounted in the order supplied, and when two
configured directories share the same basename, request-time resolution at
that mount path picks the later mount (last-write-wins). -/
theorem mount_static_dirs_order_last_write_wins (c c2 : FastAppConf Λ)
    (a : App Λ) (d1 d2 : String)
    (hdirs : FastAppConf.static_dirs c2 = [d1, d2])
    (hb : basename d1 = basename d2) :
    (FastAppConf.mount_static_dirs c a).mounts = a.mounts ++ c.static_dirs.map mountFor
    ∧ resolveMount (FastAppConf.mount_static_dirs c2 (mkFastAPI c2 none)).mounts
        ("/" ++ basename d1) = some (mountFor d2) := by
  refine ⟨by rw [mount_static_dirs_eq], ?_⟩
  rw [mount_static_dirs_eq]
  simp [mkFastAPI, hdirs, resolveMount, mountFor, hb]

/-- Witness for C3 at a concrete input: two directories /a/x and /b/x share
the basename x; both are mounted in order and /b/x wins at /x. -/
theorem mount_static_dirs_order_last_write_wins_witness :
    (FastAppConf.static_dirs twoDirConf = ["/a/x", "/b/x"]
      ∧ basename "/a/x" = basename "/b/x")
    ∧ ((FastAppConf.mount_static_dirs twoDirConf (mkFastAPI twoDirConf none)).mounts
        = (mkFastAPI twoDirConf none).mounts
          ++ (FastAppConf.static_dirs twoDirConf).map mountFor
      ∧ resolveMount
          (FastAppConf.mount_static_dirs twoDirConf (mkFastAPI twoDirConf none)).mounts
          ("/" ++ basename "/a/x") = some (mountFor "/b/x")) :=
  ⟨⟨by decide, by decide⟩,
   mount_static_dirs_order_last_write_wins twoDirConf twoDirConf
     (mkFastAPI twoDirConf none) "/a/x" "/b/x" (by decide) (by decide)⟩

/-- C4: every configured static directory is bound at the mount path given
by a slash followed by its basename, serving files from that directory; in
particular, with static_dirs = [/srv/public], a request for
/public/index.html resolves to /srv/public/index.html. -/
theorem mount_path_derivation_and_scenario (c : FastAppConf Λ) (a : App Λ) :
    (FastAppConf.mount_static_dirs c a).mounts
      = a.mounts ++ c.static_dirs.map (fun static_dir =>
          { path := "/" ++ basename static_dir
            app := { directory := static_dir }
            name := "static" })
    ∧ resolveRequest demoEnv
        (FastAppConf.setup demoEnv demoPublicConf none Renderer.default).2.1.mounts
        "/public/index.html" = some "/srv/public/index.html" := by
  refine ⟨by rw [mount_static_dirs_eq]; rfl, by decide⟩

/-- C5: with all four asset fields populated but a required asset file
absent, configure_swagger_ui is a no-op: no error, no mount, renderer
unmodified. -/
theorem configure_swagger_ui_missing_file_noop (env : Env) (c : FastAppConf Λ)
    (a : App Λ) (r : Renderer Λ)
    (h1 : truthy c.assets_url = true)
    (h2 : truthy c.swagger_css_url = true)
    (h3 : truthy c.swagger_js_url = true)
    (h4 : truthy c.swagger_favicon_url = true)
    (hmiss : env.fsExists (joinPath env.asset_path "swagger-ui.css") = false
      ∨ env.fsExists (joinPath env.asset_path "swagger-ui-bundle.js") = false) :
    FastAppConf.configure_swagger_ui env c a r = (a, r) := by
  rw [configure_swagger_ui_eq]
  have hc : swaggerCond env c = false := by
    unfold swaggerCond
    rcases hmiss with hm | hm <;> simp [hm]
  simp [hc]

/-- Witness for C5 at a concrete input: all four fields populated, the CSS
file absent, and configure_swagger_ui leaves the state untouched. -/
theorem configure_swagger_ui_missing_file_noop_witness :
    (truthy fullAssetConf.assets_url = true
      ∧ truthy fullAssetConf.swagger_css_url = true
      ∧ truthy fullAssetConf.swagger_js_url = true
      ∧ truthy fullAssetConf.swagger_favicon_url = true
      ∧ missingAssetEnv.fsExists
          (joinPath missingAssetEnv.asset_path "swagger-ui.css") = false)
    ∧ FastAppConf.configure_swagger_ui missingAssetEnv fullAssetConf
        (mkFastAPI fullAssetConf none) Renderer.default
      = (mkFastAPI fullAssetConf none, Renderer.default) :=
  ⟨⟨by decide, by decide, by decide, by decide, by decide⟩,
   configure_swagger_ui_missing_file_noop missingAssetEnv fullAssetConf
     (mkFastAPI fullAssetConf none) Renderer.default
     (by decide) (by decide) (by decide) (by decide) (Or.inl (by decide))⟩

/-- C6: when substitution activates, every subsequent call to the renderer
that does not itself bind the three URL keywords reaches
get_swagger_ui_html with the caller arguments passed through unmodified
plus the configured favicon, CSS and JS URLs. -/
theorem patched_renderer_uses_configured_urls (env : Env) (c : FastAppConf Λ)
    (a : App Λ) (r : Renderer Λ) (args : List String)
    (kwargs : List (String × Option String))
    (hcond : swaggerCond env c = true)
    (hfresh : kwargs.any (fun kv =>
        kv.1 = "swagger_favicon_url" || kv.1 = "swagger_css_url"
          || kv.1 = "swagger_js_url") = false) :
    (FastAppConf.configure_swagger_ui env c a r).2 = Renderer.patched c
    ∧ Renderer.call (FastAppConf.configure_swagger_ui env c a r).2 args kwargs
      = Except.ok
          { args := args
            kwargs := kwargs
              ++ [("swagger_favicon_url", c.swagger_favicon_url),
                  ("swagger_css_url", c.swagger_css_url),
                  ("swagger_js_url", c.swagger_js_url)] } := by
  have h2 : (FastAppConf.configure_swagger_ui env c a r).2 = Renderer.patched c := by
    rw [configure_swagger_ui_eq]
    simp [hcond]
  refine ⟨h2, ?_⟩
  rw [h2]
  simp [Renderer.call, FastAppConf._swagger_monkey_patch, hfresh]

/-- Witness for C6 at a concrete input: assets present, all fields set, a
call with one unrelated keyword argument is forwarded with the three
configured URLs appended. -/
theorem patched_renderer_uses_configured_urls_witness :
    (swaggerCond presentAssetEnv fullAssetConf = true
      ∧ List.any [("title", (some "Docs" : Option String))] (fun kv =>
          kv.1 = "swagger_favicon_url" || kv.1 = "swagger_css_url"
            || kv.1 = "swagger_js_url") = false)
    ∧ ((FastAppConf.configure_swagger_ui presentAssetEnv fullAssetConf
          (mkFastAPI fullAssetConf none) Renderer.default).2
        = Renderer.patched fullAssetConf
      ∧ Renderer.call
          (FastAppConf.configure_swagger_ui presentAssetEnv fullAssetConf
            (mkFastAPI fullAssetConf none) Renderer.default).2
          ["openapi-url-arg"] [("title", some "Docs")]
        = Except.ok
            { args := ["openapi-url-arg"]
              kwargs := [("title", some "Docs")]
                ++ [("swagger_favicon_url", fullAssetConf.swagger_favicon_url),
                    ("swagger_css_url", fullAssetConf.swagger_css_url),
                    ("swagger_js_url", fullAssetConf.swagger_js_url)] }) :=
  ⟨⟨by decide, by decide⟩,
   patched_renderer_uses_configured_urls presentAssetEnv fullAssetConf
     (mkFastAPI fullAssetConf none) Renderer.default ["openapi-url-arg"]
     [("title", some "Docs")] (by decide) (by decide)⟩

/-- C7: configure_cors registers exactly one CORS middleware whose allowed
origins are the configured list (an empty list allows no origin, not a
wildcard), with credentials allowed and wildcard methods and headers; it
changes nothing else on the application. -/
theorem configure_cors_policy (c : FastAppConf Λ) (a : App Λ) (o : String) :
    (FastAppConf.configure_cors c a).middlewares
      = a.middlewares
        ++ [{ allow_origins := c.origins
              allow_credentials := true
              allow_methods := ["*"]
              allow_headers := ["*"] }]
    ∧ (FastAppConf.configure_cors c a).mounts = a.mounts
    ∧ (Middleware.allowsOrigin
        { allow_origins := c.origins
          allow_credentials := true
          allow_methods := ["*"]
          allow_headers := ["*"] } o = true ↔ o ∈ c.origins)
    ∧ (c.origins = [] →
        Middleware.allowsOrigin
          { allow_origins := c.origins
            allow_credentials := true
            allow_methods := ["*"]
            allow_headers := ["*"] } o = false) := by
  refine ⟨rfl, rfl, ?_, ?_⟩
  · simp [Middleware.allowsOrigin]
  · intro h
    simp [Middleware.allowsOrigin, h]

/-- C8: setup builds the application from the identity and routing fields of
the configuration with the lifespan hook passed through unmodified, applies
cross-origin configuration, static mounting and documentation-asset
substitution in that order, stores the result in the app field and returns
it. -/
theorem setup_sequence (env : Env) (c : FastAppConf Λ) (l : Option Λ)
    (r : Renderer Λ) :
    (FastAppConf.setup env c l r).2.1
        = (FastAppConf.configure_swagger_ui env c
            (FastAppConf.mount_static_dirs c
              (FastAppConf.configure_cors c (mkFastAPI c l))) r).1
    ∧ (FastAppConf.setup env c l r).2.2
        = (FastAppConf.configure_swagger_ui env c
            (FastAppConf.mount_static_dirs c
              (FastAppConf.configure_cors c (mkFastAPI c l))) r).2
    ∧ FastAppConf.app (FastAppConf.setup env c l r).1
        = some (FastAppConf.setup env c l r).2.1
    ∧ (FastAppConf.setup env c l r).2.1.title = c.title
    ∧ (FastAppConf.setup env c l r).2.1.version = c.version
    ∧ (FastAppConf.setup env c l r).2.1.root_path = FastAppConf.openapi_prefix c
    ∧ (FastAppConf.setup env c l r).2.1.openapi_url = c.openapi_url
    ∧ (FastAppConf.setup env c l r).2.1.docs_url = c.docs_url
    ∧ (FastAppConf.setup env c l r).2.1.lifespan = l := by
  refine ⟨rfl, rfl, rfl, ?_, ?_, ?_, ?_, ?_, ?_⟩
  all_goals (
    simp only [FastAppConf.setup, configure_swagger_ui_eq, mount_static_dirs_eq]
    cases h : swaggerCond env c <;>
      simp [h, FastAppConf.configure_cors, App.add_middleware, mkFastAPI])

/-- C9: the constructor normalizes an omitted origins or static_dirs value
to the empty list, and stores a supplied list as given, so both collection
fields are always lists after construction. -/
theorem init_normalizes_collections (t v op ou au du cu ju fu : Option String)
    (o s : List String) :
    (FastAppConf.init t v op ou au du cu ju fu none none : FastAppConf Unit).origins = []
    ∧ (FastAppConf.init t v op ou au du cu ju fu none none : FastAppConf Unit).static_dirs = []
    ∧ (FastAppConf.init t v op ou au du cu ju fu (some o) (some s) : FastAppConf Unit).origins = o
    ∧ (FastAppConf.init t v op ou au du cu ju fu (some o) (some s) : FastAppConf Unit).static_dirs = s := by
  refine ⟨rfl, rfl, ?_, ?_⟩
  · show pyListOr (some o) [] = o
    cases o <;> simp [pyListOr]
  · show pyListOr (some s) [] = s
    cases s <;> simp [pyListOr]

/-- C10: a call to the patched renderer that itself binds one of the three
URL keyword arguments fails with a duplicate-keyword-argument TypeError
rather than honoring the caller value. -/
theorem monkey_patch_duplicate_kwarg_error (c : FastAppConf Λ)
    (args : List String) (kwargs : List (String × Option String))
    (hdup : kwargs.any (fun kv =>
        kv.1 = "swagger_favicon_url" || kv.1 = "swagger_css_url"
          || kv.1 = "swagger_js_url") = true) :
    FastAppConf._swagger_monkey_patch c args kwargs
      = Except.error "TypeError: got multiple values for keyword argument" := by
  unfold FastAppConf._swagger_monkey_patch
  simp [hdup]

/-- Witness for C10 at a concrete input: a call passing swagger_css_url
itself fails with the duplicate-keyword TypeError. -/
theorem monkey_patch_duplicate_kwarg_error_witness :
    List.any [("swagger_css_url", (some "/mine.css" : Option String))] (fun kv =>
        kv.1 = "swagger_favicon_url" || kv.1 = "swagger_css_url"
          || kv.1 = "swagger_js_url") = true
    ∧ FastAppConf._swagger_monkey_patch fullAssetConf []
        [("swagger_css_url", some "/mine.css")]
      = Except.error "TypeError: got multiple values for keyword argument" :=
  ⟨by decide,
   monkey_patch_duplicate_kwarg_error fullAssetConf []
     [("swagger_css_url", some "/mine.css")] (by decide)⟩
